import Mathlib

/-!
Verification of `evaluate.py`, a script that benchmarks LLM-generated
JavaScript solutions against HumanEval-style test cases.  The script reads
candidate files from disk, concatenates each with its test snippet, runs the
combination under `node`, and aggregates pass/fail statistics per model.

The embedding is shallow: the filesystem is an oracle `String → Option String`
(path to content, `none` meaning `FileNotFoundError` on open), the external
`node` interpreter is an oracle giving a full process result, and the dataset
loader is an `Option (List Task)` (`none` meaning the dataset file is absent).
Python `int` counters start at 0 and are only incremented, so they are `Nat`;
the derived `exception_failed = failed - assertion_failed` is an `Int`, since
Python subtraction does not truncate.
-/

namespace Evaluate

/-- Python `needle.isPrefixOf hay` on character lists (prefix test used to
implement substring search). -/
def isPre : List Char → List Char → Bool
  | [], _ => true
  | _ :: _, [] => false
  | a :: as, b :: bs => a == b && isPre as bs

/-- Python `needle in haystack`: substring containment on character lists. -/
def hasSubstr (needle : List Char) : List Char → Bool
  | [] => needle.isEmpty
  | c :: rest => isPre needle (c :: rest) || hasSubstr needle rest

/-- Python `sub in s` on `String`s. -/
def pyContains (sub s : String) : Bool :=
  hasSubstr sub.data s.data

/-- The marker the script looks for in stderr: `'Assertion failed'`. -/
def assertionMarker : String := "Assertion failed"

/-- The `EvaluationResult` data class from `evaluate.py`: per-model counters,
all initialized to 0. -/
structure EvaluationResult where
  total : Nat := 0
  correct : Nat := 0
  failed : Nat := 0
  assertion_failed : Nat := 0
  deriving Repr, DecidableEq

/-- The fresh `EvaluationResult()` every model evaluation starts from. -/
def EvaluationResult.init : EvaluationResult := {}

/-- The `exception_failed` property: `self.failed - self.assertion_failed`
(Python integer subtraction, hence `Int`). -/
def EvaluationResult.exception_failed (r : EvaluationResult) : Int :=
  (r.failed : Int) - (r.assertion_failed : Int)

/-- Method `EvaluationResult.update_counts`: increment `total`; if the error message
is empty increment `correct`, else increment `failed` and, when the message
contains `'Assertion failed'`, also `assertion_failed`. -/
def update_counts (r : EvaluationResult) (error_message : String) :
    EvaluationResult :=
  let r := { r with total := r.total + 1 }
  if error_message.isEmpty then
    { r with correct := r.correct + 1 }
  else
    let r := { r with failed := r.failed + 1 }
    if pyContains assertionMarker error_message then
      { r with assertion_failed := r.assertion_failed + 1 }
    else
      r

/-- Run a finite sequence of `update_counts` calls from a given state. -/
def runUpdates (r : EvaluationResult) (msgs : List String) : EvaluationResult :=
  msgs.foldl update_counts r

/-- The counter invariant maintained by `update_counts`. -/
def Invariant (r : EvaluationResult) : Prop :=
  r.correct + r.failed = r.total ∧ r.assertion_failed ≤ r.failed

/-- One benchmark problem from the dataset: `task_id` and `test` columns. -/
structure Task where
  task_id : String
  test : String

/-- Constant `BASE_RESULTS_PATH = PROJECT_ROOT / "results-cleaned"` with
`PROJECT_ROOT = Path("")`, rendered as the path string. -/
def BASE_RESULTS_PATH : String := "results-cleaned"

/-- Constant `DATA_FILE = PROJECT_ROOT / "humaneval_js.jsonl"` rendered as the path
string. -/
def DATA_FILE : String := "humaneval_js.jsonl"

/-- Constant `LLM_MODELS`: the configured model list, empty as shipped. -/
def LLM_MODELS : List String := []

/-- Python `s.replace(old, new)` for non-empty `old` on character lists:
replace non-overlapping occurrences left to right.  (The script only calls
it with the one-character pattern `"/"`.) -/
def pyReplace (old new : List Char) : List Char → List Char
  | [] => []
  | c :: rest =>
    if old ≠ [] ∧ isPre old (c :: rest) = true then
      new ++ pyReplace old new (List.drop (old.length - 1) rest)
    else
      c :: pyReplace old new rest
termination_by l => l.length
decreasing_by
  · simp only [List.length_cons, List.length_drop]; omega
  · simp only [List.length_cons]; omega

/-- Normalization `task_id = row.task_id.replace("/", "-")`. -/
def normalizeId (task_id : String) : String :=
  String.mk (pyReplace "/".data "-".data task_id.data)

/-- The resolved `file_path = BASE_RESULTS_PATH / model_name / f"{task_id}.js"` (with the
task id already normalized), rendered as the path string. -/
def filePath (model_name task_id : String) : String :=
  BASE_RESULTS_PATH ++ "/" ++ model_name ++ "/" ++ normalizeId task_id ++ ".js"

/-- The result of `subprocess.run(['node', '-e', code], capture_output=True,
text=True, encoding='utf-8')`: with `capture_output` and no `check=True` it
returns stdout, stderr and the exit code and raises nothing for a failing
program. -/
structure NodeResult where
  stdout : String
  stderr : String
  returncode : Int

/-- Function `execute_js_test`: run the code under `node -e` and return the process's
stderr (empty on success).  The external interpreter is the oracle
`runNode`. -/
def execute_js_test (runNode : String → NodeResult) (test_code : String) :
    String :=
  (runNode test_code).stderr

/-- The combined `test_code = f"{llm_response}\n\n{row.test}"`: candidate text, blank-line
separator, test snippet. -/
def combineProgram (llm_response test : String) : String :=
  llm_response ++ "\n\n" ++ test

/-- The warning `print(f"Warning: File not found, skipping: {file_path}")`. -/
def warnMsg (file_path : String) : String :=
  "Warning: File not found, skipping: " ++ file_path

/-- Observable state threaded through `evaluate_model`'s loop: the counters,
the warnings printed so far, and the programs handed to `node` so far. -/
structure RunState where
  results : EvaluationResult := {}
  warnings : List String := []
  executed : List String := []
  deriving Repr, DecidableEq

/-- One iteration of the loop in `evaluate_model`: resolve the candidate
path; on `FileNotFoundError` print a warning and `continue`; otherwise read
the file, build the combined program, execute it and update the counters.
The filesystem is the oracle `fs` (path to content, `none` = file absent). -/
def evalStep (fs : String → Option String) (runNode : String → NodeResult)
    (model_name : String) (st : RunState) (t : Task) : RunState :=
  let fp := filePath model_name t.task_id
  match fs fp with
  | none => { st with warnings := st.warnings ++ [warnMsg fp] }
  | some llm_response =>
    let code := combineProgram llm_response t.test
    { results := update_counts st.results (execute_js_test runNode code),
      warnings := st.warnings,
      executed := st.executed ++ [code] }

/-- Function `evaluate_model`: fold the loop body over the dataset rows, starting from
a fresh `EvaluationResult()`. -/
def evaluate_model (fs : String → Option String)
    (runNode : String → NodeResult) (model_name : String) (df : List Task) :
    RunState :=
  df.foldl (evalStep fs runNode model_name) {}

/-- An ASCII apostrophe, as a string. -/
def quoteMark : String := String.singleton (Char.ofNat 39)

/-- The message `print(f"Error: The data file '{DATA_FILE}' was not
found.")`. -/
def dataMissingMsg : String :=
  "Error: The data file " ++ quoteMark ++ DATA_FILE ++ quoteMark
    ++ " was not found."

/-- What `main` observably does: error messages printed, per-model summary
blocks printed (model name with its final counters), and all programs handed
to `node` over the whole run. -/
structure MainOutput where
  errors : List String := []
  summaries : List (String × EvaluationResult) := []
  executed : List String := []
  deriving Repr

/-- Function `main`, parametrized by its oracles: the dataset loader (`none` =
`FileNotFoundError` from `pd.read_json`, which `main` catches), the
filesystem, the external interpreter, and the model list (the source reads
the global `LLM_MODELS`; see `mainEntry`). -/
def main (loadData : Option (List Task)) (fs : String → Option String)
    (runNode : String → NodeResult) (models : List String) : MainOutput :=
  match loadData with
  | none => { errors := [dataMissingMsg] }
  | some df =>
    let states := models.map (fun llm => (llm, evaluate_model fs runNode llm df))
    { errors := [],
      summaries := states.map (fun p => (p.1, p.2.results)),
      executed := (states.map (fun p => p.2.executed)).flatten }

/-- Function `main` as the script runs it: over the global `LLM_MODELS`. -/
def mainEntry (loadData : Option (List Task)) (fs : String → Option String)
    (runNode : String → NodeResult) : MainOutput :=
  main loadData fs runNode LLM_MODELS

/-- A Python exception, for the exception-explicit model of the run.  The
only exception the script's error model raises is `FileNotFoundError`. -/
inductive PyExc where
  | fileNotFound (path : String)
  deriving Repr, DecidableEq

/-- Opening `file_path.open("r", encoding="utf-8")` followed by `f.read()`: returns
the content, or raises `FileNotFoundError` when the file is absent. -/
def openFile (fs : String → Option String) (p : String) :
    Except PyExc String :=
  match fs p with
  | some content => Except.ok content
  | none => Except.error (PyExc.fileNotFound p)

/-- Exception-explicit loop body: the `try/except FileNotFoundError` in the
source catches exactly that exception and converts it into a warning plus
`continue`; any uncaught exception would surface as `Except.error`. -/
def evalStepE (fs : String → Option String) (runNode : String → NodeResult)
    (model_name : String) (st : RunState) (t : Task) :
    Except PyExc RunState :=
  let fp := filePath model_name t.task_id
  match openFile fs fp with
  | Except.error (PyExc.fileNotFound p) =>
    Except.ok { st with warnings := st.warnings ++ [warnMsg p] }
  | Except.ok llm_response =>
    let code := combineProgram llm_response t.test
    Except.ok
      { results := update_counts st.results (execute_js_test runNode code),
        warnings := st.warnings,
        executed := st.executed ++ [code] }

/-- Exception-explicit `evaluate_model`. -/
def evaluate_modelE (fs : String → Option String)
    (runNode : String → NodeResult) (model_name : String) (df : List Task) :
    Except PyExc RunState :=
  df.foldlM (evalStepE fs runNode model_name) {}

/-- Exception-explicit form of the `for llm in LLM_MODELS` loop in `main`:
evaluate each model in order, recording its name and final run state. -/
def mainLoopE (fs : String → Option String) (runNode : String → NodeResult)
    (df : List Task) : List String → Except PyExc (List (String × RunState))
  | [] => Except.ok []
  | llm :: rest => do
    let st ← evaluate_modelE fs runNode llm df
    let tail ← mainLoopE fs runNode df rest
    pure ((llm, st) :: tail)

/-- Exception-explicit `main`: the `try/except FileNotFoundError` around
`pd.read_json` catches exactly that exception, prints the error message and
returns; an exception anywhere else would surface as `Except.error`. -/
def mainE (loadData : Except PyExc (List Task))
    (fs : String → Option String) (runNode : String → NodeResult)
    (models : List String) : Except PyExc MainOutput :=
  match loadData with
  | Except.error (PyExc.fileNotFound _) =>
    Except.ok { errors := [dataMissingMsg] }
  | Except.ok df => do
    let states ← mainLoopE fs runNode df models
    pure { errors := [],
           summaries := states.map (fun p => (p.1, p.2.results)),
           executed := (states.map (fun p => p.2.executed)).flatten }

/-- The pass rate in `print_summary`: `correct / total * 100` when `total > 0`,
else `0` (the script computes it in floating point; the value is modelled
exactly, in `ℚ`). -/
def passRate (r : EvaluationResult) : ℚ :=
  if r.total > 0 then (r.correct : ℚ) / (r.total : ℚ) * 100 else 0

/-- The exception rate in `print_summary`: `exception_failed / failed * 100` when
`failed > 0`, else `0`. -/
def exceptionRate (r : EvaluationResult) : ℚ :=
  if r.failed > 0 then (r.exception_failed : ℚ) / (r.failed : ℚ) * 100 else 0

lemma update_counts_invariant (r : EvaluationResult) (s : String)
    (h : Invariant r) : Invariant (update_counts r s) := by
  obtain ⟨h1, h2⟩ := h
  unfold update_counts Invariant
  dsimp only
  split
  · dsimp only; omega
  · split
    · dsimp only; omega
    · dsimp only; omega

lemma runUpdates_invariant (msgs : List String) (r : EvaluationResult)
    (h : Invariant r) : Invariant (runUpdates r msgs) := by
  induction msgs generalizing r with
  | nil => exact h
  | cons m ms ih => exact ih _ (update_counts_invariant r m h)

lemma update_counts_fields (r : EvaluationResult) (s : String) :
    (update_counts r s).total = r.total + 1 ∧
    (update_counts r s).correct = r.correct + (if s.isEmpty then 1 else 0) ∧
    (update_counts r s).failed = r.failed + (if s.isEmpty then 0 else 1) ∧
    (update_counts r s).assertion_failed
      = r.assertion_failed +
        (if !s.isEmpty && pyContains assertionMarker s then 1 else 0) := by
  unfold update_counts
  dsimp only
  by_cases he : s.isEmpty
  · simp [he]
  · by_cases hc : pyContains assertionMarker s
    · simp [he, hc]
    · simp [he, hc]

lemma isPre_append_self (n s : List Char) : isPre n (n ++ s) = true := by
  induction n with
  | nil => rfl
  | cons c rest ih => simp [isPre, ih]

lemma hasSubstr_nil_needle (l : List Char) : hasSubstr [] l = true := by
  cases l with
  | nil => rfl
  | cons c rest => simp [hasSubstr, isPre]

lemma hasSubstr_mid (p n s : List Char) : hasSubstr n (p ++ n ++ s) = true := by
  induction p with
  | nil =>
    cases n with
    | nil => simpa using hasSubstr_nil_needle s
    | cons c rest =>
      simp only [List.nil_append, List.cons_append, hasSubstr, Bool.or_eq_true]
      exact Or.inl (isPre_append_self (c :: rest) s)
  | cons x p ih =>
    simp only [List.cons_append, hasSubstr, Bool.or_eq_true]
    exact Or.inr (by simpa [List.append_assoc] using ih)

/-- Lemma: `pyContains` finds the needle wherever it sits between two other
strings. -/
lemma pyContains_mid (p n s : String) :
    pyContains n (p ++ n ++ s) = true := by
  unfold pyContains
  rw [String.data_append, String.data_append]
  exact hasSubstr_mid p.data n.data s.data

/-- Lemma: `pyContains` finds the needle at the end of a string. -/
lemma pyContains_after (p n : String) : pyContains n (p ++ n) = true := by
  unfold pyContains
  rw [String.data_append]
  simpa using hasSubstr_mid p.data n.data []

/-- Replacing a one-character pattern is a character map. -/
lemma pyReplace_single (a b : Char) (l : List Char) :
    pyReplace [a] [b] l = l.map (fun c => if c = a then b else c) := by
  induction l with
  | nil => rw [pyReplace]; rfl
  | cons c rest ih =>
    rw [pyReplace]
    by_cases h : a = c
    · subst h
      simp [isPre, ih]
    · have hca : ¬ c = a := fun hh => h hh.symm
      simp [isPre, h, hca, ih]

lemma normalizeId_data (task_id : String) :
    (normalizeId task_id).data
      = task_id.data.map (fun c => if c = '/' then '-' else c) :=
  pyReplace_single '/' '-' task_id.data

lemma map_slash_id (l : List Char) (h : ∀ c ∈ l, c ≠ '/') :
    l.map (fun c => if c = '/' then '-' else c) = l := by
  induction l with
  | nil => rfl
  | cons c rest ih =>
    simp only [List.map_cons]
    rw [if_neg (h c (List.mem_cons_self c rest)),
      ih (fun x hx => h x (List.mem_cons_of_mem c hx))]

lemma evalStepE_ok (fs : String → Option String)
    (runNode : String → NodeResult) (model_name : String) (st : RunState)
    (t : Task) :
    evalStepE fs runNode model_name st t
      = Except.ok (evalStep fs runNode model_name st t) := by
  cases h : fs (filePath model_name t.task_id) <;>
    simp [evalStepE, evalStep, openFile, h]

lemma evaluate_modelE_ok (fs : String → Option String)
    (runNode : String → NodeResult) (model_name : String) (df : List Task) :
    evaluate_modelE fs runNode model_name df
      = Except.ok (evaluate_model fs runNode model_name df) := by
  unfold evaluate_modelE evaluate_model
  generalize ({} : RunState) = st
  induction df generalizing st with
  | nil => rfl
  | cons t rest ih =>
    rw [List.foldlM_cons, evalStepE_ok]
    simpa using ih (evalStep fs runNode model_name st t)

lemma mainLoopE_ok (fs : String → Option String)
    (runNode : String → NodeResult) (df : List Task)
    (models : List String) :
    mainLoopE fs runNode df models
      = Except.ok
          (models.map (fun llm => (llm, evaluate_model fs runNode llm df))) := by
  induction models with
  | nil => rfl
  | cons llm rest ih =>
    rw [mainLoopE, evaluate_modelE_ok]
    simp only [ih]
    rfl

end Evaluate

/-- C1: every `EvaluationResult` reachable from the initial state by
`update_counts` calls satisfies `correct + failed = total` and
`assertion_failed ≤ failed`, and its `exception_failed` property equals
`failed - assertion_failed` (and is hence non-negative). -/
theorem C1_reachable_invariant (msgs : List String) :
    (Evaluate.runUpdates Evaluate.EvaluationResult.init msgs).correct
        + (Evaluate.runUpdates Evaluate.EvaluationResult.init msgs).failed
      = (Evaluate.runUpdates Evaluate.EvaluationResult.init msgs).total ∧
    (Evaluate.runUpdates Evaluate.EvaluationResult.init msgs).assertion_failed
      ≤ (Evaluate.runUpdates Evaluate.EvaluationResult.init msgs).failed ∧
    (Evaluate.runUpdates Evaluate.EvaluationResult.init msgs).exception_failed
      = ((Evaluate.runUpdates Evaluate.EvaluationResult.init msgs).failed : Int)
        - ((Evaluate.runUpdates Evaluate.EvaluationResult.init
            msgs).assertion_failed : Int) ∧
    0 ≤ (Evaluate.runUpdates Evaluate.EvaluationResult.init
          msgs).exception_failed := by
  have h := Evaluate.runUpdates_invariant msgs Evaluate.EvaluationResult.init
    ⟨rfl, Nat.le_refl 0⟩
  obtain ⟨h1, h2⟩ := h
  exact ⟨h1, h2, rfl, by
    unfold Evaluate.EvaluationResult.exception_failed; omega⟩

/-- C2: `update_counts` increments `total` by exactly 1; it increments
`correct` by 1 exactly when the outcome is empty, `failed` by 1 exactly when
it is non-empty, and `assertion_failed` by 1 exactly when the outcome is
non-empty and contains the substring `'Assertion failed'`; no other change
is made to any field. -/
theorem C2_update_counts_step (r : Evaluate.EvaluationResult) (s : String) :
    (Evaluate.update_counts r s).total = r.total + 1 ∧
    (Evaluate.update_counts r s).correct
      = r.correct + (if s.isEmpty then 1 else 0) ∧
    (Evaluate.update_counts r s).failed
      = r.failed + (if s.isEmpty then 0 else 1) ∧
    (Evaluate.update_counts r s).assertion_failed
      = r.assertion_failed +
        (if !s.isEmpty && Evaluate.pyContains Evaluate.assertionMarker s
         then 1 else 0) :=
  Evaluate.update_counts_fields r s

/-- C3: when the candidate file for a task is absent, the loop body of
`evaluate_model` leaves every counter and the execution trace unchanged,
appends exactly one warning, that warning names the missing path, and the
fold goes on with the remaining tasks from the skipped state. -/
theorem C3_missing_file_skips (fs : String → Option String)
    (runNode : String → Evaluate.NodeResult) (model_name : String)
    (st : Evaluate.RunState) (t : Evaluate.Task) (rest : List Evaluate.Task)
    (h : fs (Evaluate.filePath model_name t.task_id) = none) :
    (Evaluate.evalStep fs runNode model_name st t).results = st.results ∧
    (Evaluate.evalStep fs runNode model_name st t).executed = st.executed ∧
    (Evaluate.evalStep fs runNode model_name st t).warnings
      = st.warnings
        ++ [Evaluate.warnMsg (Evaluate.filePath model_name t.task_id)] ∧
    Evaluate.pyContains (Evaluate.filePath model_name t.task_id)
      (Evaluate.warnMsg (Evaluate.filePath model_name t.task_id)) = true ∧
    (t :: rest).foldl (Evaluate.evalStep fs runNode model_name) st
      = rest.foldl (Evaluate.evalStep fs runNode model_name)
          (Evaluate.evalStep fs runNode model_name st t) := by
  have hstep : Evaluate.evalStep fs runNode model_name st t
      = { st with warnings := st.warnings
            ++ [Evaluate.warnMsg (Evaluate.filePath model_name t.task_id)] } := by
    simp [Evaluate.evalStep, h]
  refine ⟨by rw [hstep], by rw [hstep], by rw [hstep], ?_, rfl⟩
  exact Evaluate.pyContains_after "Warning: File not found, skipping: "
    (Evaluate.filePath model_name t.task_id)

/-- Witness for C3 at a concrete empty filesystem and task. -/
theorem C3_witness :
    (Evaluate.evalStep (fun _ => none) (fun _ => ⟨"", "", 0⟩) "m"
        {} ⟨"HumanEval/0", "assert(1===1);"⟩).results
      = ({} : Evaluate.RunState).results ∧
    (Evaluate.evalStep (fun _ => none) (fun _ => ⟨"", "", 0⟩) "m"
        {} ⟨"HumanEval/0", "assert(1===1);"⟩).executed
      = ({} : Evaluate.RunState).executed ∧
    (Evaluate.evalStep (fun _ => none) (fun _ => ⟨"", "", 0⟩) "m"
        {} ⟨"HumanEval/0", "assert(1===1);"⟩).warnings
      = ({} : Evaluate.RunState).warnings
        ++ [Evaluate.warnMsg (Evaluate.filePath "m" "HumanEval/0")] ∧
    Evaluate.pyContains (Evaluate.filePath "m" "HumanEval/0")
      (Evaluate.warnMsg (Evaluate.filePath "m" "HumanEval/0")) = true ∧
    ([⟨"HumanEval/0", "assert(1===1);"⟩] : List Evaluate.Task).foldl
        (Evaluate.evalStep (fun _ => none) (fun _ => ⟨"", "", 0⟩) "m") {}
      = ([] : List Evaluate.Task).foldl
          (Evaluate.evalStep (fun _ => none) (fun _ => ⟨"", "", 0⟩) "m")
          (Evaluate.evalStep (fun _ => none) (fun _ => ⟨"", "", 0⟩) "m"
            {} ⟨"HumanEval/0", "assert(1===1);"⟩) :=
  C3_missing_file_skips (fun _ => none) (fun _ => ⟨"", "", 0⟩) "m" {}
    ⟨"HumanEval/0", "assert(1===1);"⟩ [] rfl

/-- C4: success versus failure depends only on the captured stderr text:
`execute_js_test` returns exactly the process's stderr (never stdout or the
exit code), and `update_counts` counts an outcome as correct exactly when the
text is empty and as failed exactly when it is non-empty. -/
theorem C4_stderr_is_the_signal (runNode : String → Evaluate.NodeResult)
    (test_code : String) (r : Evaluate.EvaluationResult) (s : String) :
    Evaluate.execute_js_test runNode test_code = (runNode test_code).stderr ∧
    ((Evaluate.update_counts r s).correct = r.correct + 1
      ↔ s.isEmpty = true) ∧
    ((Evaluate.update_counts r s).failed = r.failed + 1
      ↔ s.isEmpty = false) := by
  obtain ⟨-, h2, h3, -⟩ := Evaluate.update_counts_fields r s
  refine ⟨rfl, ?_, ?_⟩
  · by_cases he : s.isEmpty <;> simp [he] at h2 ⊢ <;> omega
  · by_cases he : s.isEmpty <;> simp [he] at h3 ⊢ <;> omega

/-- C5: the candidate path is
`<results-root>/<modelName>/<normalizedId>.js`, where normalization replaces
every `/` of the task id by `-` (a character map); a task id without `/` is
used unchanged, and one with several `/` has all of them replaced. -/
theorem C5_candidate_path (model_name task_id : String) :
    Evaluate.filePath model_name task_id
      = "results-cleaned" ++ "/" ++ model_name ++ "/"
          ++ Evaluate.normalizeId task_id ++ ".js" ∧
    (Evaluate.normalizeId task_id).data
      = task_id.data.map (fun c => if c = '/' then '-' else c) ∧
    (task_id.data.all (fun c => c != '/') = true →
      Evaluate.normalizeId task_id = task_id) ∧
    Evaluate.normalizeId "HumanEval/0" = "HumanEval-0" ∧
    Evaluate.normalizeId "a/b/c" = "a-b-c" := by
  refine ⟨rfl, Evaluate.normalizeId_data task_id, ?_, ?_, ?_⟩
  · intro h
    have hall : ∀ c ∈ task_id.data, c ≠ '/' := by
      intro c hc
      simpa using List.all_eq_true.mp h c hc
    have hdata : (Evaluate.normalizeId task_id).data = task_id.data := by
      rw [Evaluate.normalizeId_data]
      exact Evaluate.map_slash_id task_id.data hall
    exact congrArg String.mk hdata
  · exact congrArg String.mk (Evaluate.normalizeId_data "HumanEval/0")
  · exact congrArg String.mk (Evaluate.normalizeId_data "a/b/c")

/-- Witness for C5 at a slash-free concrete task id. -/
theorem C5_witness :
    Evaluate.normalizeId "HumanEval0" = "HumanEval0" :=
  (C5_candidate_path "model" "HumanEval0").2.2.1 (by decide)

/-- C6: when the candidate file is present, the program handed to `node` is
exactly the candidate text, a blank-line separator, then the test snippet,
and the counters are updated with that program's stderr; for the empty
candidate and test `assert(1===1);` the program is `"\n\nassert(1===1);"`. -/
theorem C6_candidate_then_test (fs : String → Option String)
    (runNode : String → Evaluate.NodeResult) (model_name : String)
    (st : Evaluate.RunState) (t : Evaluate.Task) (c : String)
    (h : fs (Evaluate.filePath model_name t.task_id) = some c) :
    (Evaluate.evalStep fs runNode model_name st t).executed
      = st.executed ++ [c ++ "\n\n" ++ t.test] ∧
    (Evaluate.evalStep fs runNode model_name st t).results
      = Evaluate.update_counts st.results
          (Evaluate.execute_js_test runNode (c ++ "\n\n" ++ t.test)) ∧
    Evaluate.combineProgram "" "assert(1===1);" = "\n\nassert(1===1);" := by
  refine ⟨?_, ?_, rfl⟩ <;>
    simp [Evaluate.evalStep, h, Evaluate.combineProgram]

/-- Witness for C6: empty candidate, clean run, one task counted correct. -/
theorem C6_witness :
    (Evaluate.evalStep (fun _ => some "") (fun _ => ⟨"", "", 0⟩) "m"
        {} ⟨"HumanEval/0", "assert(1===1);"⟩).executed
      = ({} : Evaluate.RunState).executed ++ ["" ++ "\n\n" ++ "assert(1===1);"] ∧
    (Evaluate.evalStep (fun _ => some "") (fun _ => ⟨"", "", 0⟩) "m"
        {} ⟨"HumanEval/0", "assert(1===1);"⟩).results
      = Evaluate.update_counts ({} : Evaluate.RunState).results
          (Evaluate.execute_js_test (fun _ => ⟨"", "", 0⟩)
            ("" ++ "\n\n" ++ "assert(1===1);")) ∧
    Evaluate.combineProgram "" "assert(1===1);" = "\n\nassert(1===1);" :=
  C6_candidate_then_test (fun _ => some "") (fun _ => ⟨"", "", 0⟩) "m" {}
    ⟨"HumanEval/0", "assert(1===1);"⟩ "" rfl

/-- C7: with the dataset file absent, `main` prints exactly one error message,
that message names the dataset path, and it performs zero evaluations: no
summary is printed and no program is executed (the embedding returns an
output record, i.e. `main` returns normally). -/
theorem C7_missing_dataset (fs : String → Option String)
    (runNode : String → Evaluate.NodeResult) (models : List String) :
    Evaluate.main none fs runNode models
      = { errors := [Evaluate.dataMissingMsg], summaries := [],
          executed := [] } ∧
    Evaluate.pyContains Evaluate.DATA_FILE Evaluate.dataMissingMsg = true := by
  refine ⟨rfl, ?_⟩
  have h := Evaluate.pyContains_mid
    ("Error: The data file " ++ Evaluate.quoteMark) Evaluate.DATA_FILE
    (Evaluate.quoteMark ++ " was not found.")
  simpa [Evaluate.dataMissingMsg, String.append_assoc] using h

/-- C8: the summary's rates are guarded against division by zero: the pass
rate is `correct / total * 100` when `total > 0` and `0` when `total = 0`;
the exception rate is `exception_failed / failed * 100` (with
`exception_failed = failed - assertion_failed`) when `failed > 0` and `0`
when `failed = 0`. -/
theorem C8_rate_guards (r : Evaluate.EvaluationResult) :
    (r.total = 0 → Evaluate.passRate r = 0) ∧
    (0 < r.total →
      Evaluate.passRate r = (r.correct : ℚ) / (r.total : ℚ) * 100) ∧
    (r.failed = 0 → Evaluate.exceptionRate r = 0) ∧
    (0 < r.failed →
      Evaluate.exceptionRate r
        = ((r.failed : ℚ) - (r.assertion_failed : ℚ)) / (r.failed : ℚ)
            * 100) := by
  refine ⟨?_, ?_, ?_, ?_⟩
  · intro h; simp [Evaluate.passRate, h]
  · intro h; simp [Evaluate.passRate, h]
  · intro h; simp [Evaluate.exceptionRate, h]
  · intro h
    rw [Evaluate.exceptionRate, if_pos h,
      Evaluate.EvaluationResult.exception_failed]
    push_cast
    ring

/-- Witness for C8 at the zero state and at `total=4, correct=2, failed=2,
assertion_failed=1`. -/
theorem C8_witness :
    Evaluate.passRate {} = 0 ∧
    Evaluate.exceptionRate {} = 0 ∧
    Evaluate.passRate ⟨4, 2, 2, 1⟩ = ((2 : ℕ) : ℚ) / ((4 : ℕ) : ℚ) * 100 ∧
    Evaluate.exceptionRate ⟨4, 2, 2, 1⟩
      = (((2 : ℕ) : ℚ) - ((1 : ℕ) : ℚ)) / ((2 : ℕ) : ℚ) * 100 :=
  ⟨(C8_rate_guards {}).1 rfl, (C8_rate_guards {}).2.2.1 rfl,
   (C8_rate_guards ⟨4, 2, 2, 1⟩).2.1 (by decide),
   (C8_rate_guards ⟨4, 2, 2, 1⟩).2.2.2 (by decide)⟩

/-- C9: the exception-explicit run never surfaces an exception: `mainE`
always returns `ok`, agreeing with the pure `main`; the missing dataset is
converted into the error message, a missing candidate file into a warning,
and execution failures into counts. -/
theorem C9_no_exception_escapes
    (loadData : Except Evaluate.PyExc (List Evaluate.Task))
    (fs : String → Option String) (runNode : String → Evaluate.NodeResult)
    (models : List String) :
    Evaluate.mainE loadData fs runNode models
      = Except.ok (Evaluate.main loadData.toOption fs runNode models) ∧
    ∀ e : Evaluate.PyExc,
      Evaluate.mainE loadData fs runNode models ≠ Except.error e := by
  have hmain : Evaluate.mainE loadData fs runNode models
      = Except.ok (Evaluate.main loadData.toOption fs runNode models) := by
    cases loadData with
    | error e => cases e with | fileNotFound p => rfl
    | ok df =>
      show (do
        let states ← Evaluate.mainLoopE fs runNode df models
        pure ({ errors := [],
                summaries := states.map
                  (fun p : String × Evaluate.RunState => (p.1, p.2.results)),
                executed := (states.map
                  (fun p : String × Evaluate.RunState => p.2.executed)).flatten }
          : Evaluate.MainOutput))
        = _
      rw [Evaluate.mainLoopE_ok]
      rfl
  refine ⟨hmain, fun e he => ?_⟩
  rw [hmain] at he
  exact Except.noConfusion he

/-- C10: the shipped model list is empty, so a successful dataset load still
evaluates no model: no summary block and no executed program. -/
theorem C10_empty_model_list (fs : String → Option String)
    (runNode : String → Evaluate.NodeResult) (df : List Evaluate.Task) :
    Evaluate.LLM_MODELS = [] ∧
    Evaluate.mainEntry (some df) fs runNode
      = { errors := [], summaries := [], executed := [] } :=
  ⟨rfl, rfl⟩

/-- Witness for C9 at a concrete failing dataset load and empty run. -/
theorem C9_witness :
    Evaluate.mainE
        (Except.error (Evaluate.PyExc.fileNotFound "humaneval_js.jsonl"))
        (fun _ => none) (fun _ => ⟨"", "", 0⟩) []
      = Except.ok
          (Evaluate.main
            (Except.toOption
              (Except.error (Evaluate.PyExc.fileNotFound "humaneval_js.jsonl")))
            (fun _ => none) (fun _ => ⟨"", "", 0⟩) []) ∧
    Evaluate.mainE
        (Except.error (Evaluate.PyExc.fileNotFound "humaneval_js.jsonl"))
        (fun _ => none) (fun _ => ⟨"", "", 0⟩) []
      ≠ Except.error (Evaluate.PyExc.fileNotFound "humaneval_js.jsonl") :=
  ⟨(C9_no_exception_escapes
      (Except.error (Evaluate.PyExc.fileNotFound "humaneval_js.jsonl"))
      (fun _ => none) (fun _ => ⟨"", "", 0⟩) []).1,
   (C9_no_exception_escapes
      (Except.error (Evaluate.PyExc.fileNotFound "humaneval_js.jsonl"))
      (fun _ => none) (fun _ => ⟨"", "", 0⟩) []).2
     (Evaluate.PyExc.fileNotFound "humaneval_js.jsonl")⟩
